import Mathlib

/-!
Verification development for the slurm_mcp repository: a shallow embedding of
the SSH session layer (`ssh_client.py`), the SLURM command builders
(`slurm_commands.py`) and the exposed MCP tool operations (`server.py`),
together with proofs of the specified properties.

Python `Optional[str]` parameters are embedded as `Option String`; the code
tests them with Python truthiness (`if user:`), under which both `None` and
the empty string count as absent, so truthiness is modelled explicitly.
Python dictionaries returned by the tool layer are embedded as ordered
key/value lists, mirroring the literal dict displays in the source.
-/

namespace SlurmMcp

/-- Python truthiness of an `Optional[str]` value: `None` and `""` are falsy. -/
def truthy : Option String → Bool
  | none => false
  | some s => !(s == "")

/-- The underlying string of an optional value (meaningful when `truthy`). -/
def getS : Option String → String
  | none => ""
  | some s => s

/-- The f-string `f'"{format_str}"'` used by the squeue/sinfo builders:
the value surrounded by literal double-quote characters. -/
def quoted (s : String) : String := "\"" ++ s ++ "\""

/-- The `(stdout, stderr, exit_code)` triple produced by executing a command. -/
structure ExecTriple where
  stdout : String
  stderr : String
  exit_code : Int
deriving DecidableEq, Repr

namespace SlurmClient

/-- Default squeue column format (source literal, quotes included):
`'"%.18i %.9P %.8j %.8u %.2t %.10M %.6D %R"'`. -/
def squeue_default_format : String := "\"%.18i %.9P %.8j %.8u %.2t %.10M %.6D %R\""

/-- Default sinfo column format (source literal, quotes included). -/
def sinfo_default_format : String := "\"%.20P %.5a %.10l %.6D %.6t %.14N\""

/-- Default sacct field list (source literal, no quote characters). -/
def sacct_default_fields : String :=
  "JobID,JobName,Partition,Account,AllocCPUS,State,ExitCode"

/-- Token list assembled by `SlurmClient.squeue` before `" ".join(cmd)`. -/
def squeue_cmd (user job_id partition format_str : Option String) : List String :=
  ["squeue"]
    ++ (if truthy format_str then ["-o", quoted (getS format_str)]
        else ["-o", squeue_default_format])
    ++ (if truthy user then ["-u", getS user] else [])
    ++ (if truthy job_id then ["-j", getS job_id] else [])
    ++ (if truthy partition then ["-p", getS partition] else [])

/-- The command string executed by `SlurmClient.squeue`. -/
def squeue_command (user job_id partition format_str : Option String) : String :=
  String.intercalate " " (squeue_cmd user job_id partition format_str)

/-- Token list assembled by `SlurmClient.sinfo`. -/
def sinfo_cmd (partition format_str nodes : Option String) : List String :=
  ["sinfo"]
    ++ (if truthy format_str then ["-o", quoted (getS format_str)]
        else ["-o", sinfo_default_format])
    ++ (if truthy partition then ["-p", getS partition] else [])
    ++ (if truthy nodes then ["-n", getS nodes] else [])

/-- The command string executed by `SlurmClient.sinfo`. -/
def sinfo_command (partition format_str nodes : Option String) : String :=
  String.intercalate " " (sinfo_cmd partition format_str nodes)

/-- Token list assembled by `SlurmClient.sacct`. -/
def sacct_cmd (job_id user start_time end_time format_str : Option String) : List String :=
  ["sacct"]
    ++ (if truthy format_str then ["--format", getS format_str]
        else ["--format", sacct_default_fields])
    ++ (if truthy job_id then ["-j", getS job_id] else [])
    ++ (if truthy user then ["-u", getS user] else [])
    ++ (if truthy start_time then ["-S", getS start_time] else [])
    ++ (if truthy end_time then ["-E", getS end_time] else [])

/-- The command string executed by `SlurmClient.sacct`. -/
def sacct_command (job_id user start_time end_time format_str : Option String) : String :=
  String.intercalate " " (sacct_cmd job_id user start_time end_time format_str)

/-- The command string executed by `SlurmClient.scontrol_show_job`. -/
def scontrol_show_job_command (job_id : String) : String :=
  "scontrol show job " ++ job_id

/-- The command string executed by `SlurmClient.scontrol_show_node`
(Python truthiness on the optional node name). -/
def scontrol_show_node_command (node_name : Option String) : String :=
  if truthy node_name then "scontrol show node " ++ getS node_name
  else "scontrol show nodes"

/-- The command string executed by `SlurmClient.scancel`. -/
def scancel_command (job_id : String) : String := "scancel " ++ job_id

/-- Rendering of an ordered list of (flag, value) pairs as command-line
tokens: each pair contributes its flag immediately followed by its value. -/
def pair_tokens : List (String × String) → List String
  | [] => []
  | (flag, value) :: rest => flag :: value :: pair_tokens rest

/-- Spec-side description of queue-list: the ordered (flag, value) pairs the
documentation prescribes — the format flag first (default columns when no
custom format is supplied), then user, then job-id, then partition, each
supplied filter contributing its flag exactly once and absent filters
contributing nothing. -/
def squeue_spec_flags (user job_id partition format_str : Option String) :
    List (String × String) :=
  [("-o", if truthy format_str then quoted (getS format_str) else squeue_default_format)]
    ++ (if truthy user then [("-u", getS user)] else [])
    ++ (if truthy job_id then [("-j", getS job_id)] else [])
    ++ (if truthy partition then [("-p", getS partition)] else [])

/-- The dictionary every `SlurmClient` method returns:
`{command, stdout, stderr, exit_code, success}` with `success = (exit_code == 0)`. -/
structure CmdResult where
  command : String
  stdout : String
  stderr : String
  exit_code : Int
  success : Bool
deriving DecidableEq, Repr

/-- Shared body of every `SlurmClient` method: execute the built command via
the SSH layer (modelled by the triple it returns) and package the result dict. -/
def run (exec : String → ExecTriple) (command : String) : CmdResult :=
  let t := exec command
  { command := command, stdout := t.stdout, stderr := t.stderr,
    exit_code := t.exit_code, success := t.exit_code == 0 }

/-- `SlurmClient.squeue`, given the behaviour of `execute_command`. -/
def squeue (exec : String → ExecTriple)
    (user job_id partition format_str : Option String) : CmdResult :=
  run exec (squeue_command user job_id partition format_str)

/-- `SlurmClient.sinfo`, given the behaviour of `execute_command`. -/
def sinfo (exec : String → ExecTriple)
    (partition format_str nodes : Option String) : CmdResult :=
  run exec (sinfo_command partition format_str nodes)

/-- `SlurmClient.sacct`, given the behaviour of `execute_command`. -/
def sacct (exec : String → ExecTriple)
    (job_id user start_time end_time format_str : Option String) : CmdResult :=
  run exec (sacct_command job_id user start_time end_time format_str)

/-- `SlurmClient.scontrol_show_job`, given the behaviour of `execute_command`. -/
def scontrol_show_job (exec : String → ExecTriple) (job_id : String) : CmdResult :=
  run exec (scontrol_show_job_command job_id)

/-- `SlurmClient.scontrol_show_node`, given the behaviour of `execute_command`. -/
def scontrol_show_node (exec : String → ExecTriple) (node_name : Option String) : CmdResult :=
  run exec (scontrol_show_node_command node_name)

/-- `SlurmClient.scancel`, given the behaviour of `execute_command`. -/
def scancel (exec : String → ExecTriple) (job_id : String) : CmdResult :=
  run exec (scancel_command job_id)

end SlurmClient

namespace SSHClient

/-- The `paramiko.SSHClient` object held in `self.client`: an external
transport object that may or may not have an established session. -/
structure ParamikoClient where
  connected : Bool
deriving DecidableEq, Repr

/-- The fields of an `SSHClient` instance (`ssh_client.py`, `__init__`). -/
structure State where
  hostname : String
  username : String
  password : Option String
  key_filename : Option String
  port : Int
  client : Option ParamikoClient
deriving DecidableEq, Repr

/-- `SSHClient.__init__`: stores the configuration, `self.client = None`. -/
def init (hostname username : String) (password key_filename : Option String)
    (port : Int) : State :=
  { hostname := hostname, username := username, password := password,
    key_filename := key_filename, port := port, client := none }

/-- The authentication method selected by `connect`:
key file takes precedence over password. -/
inductive AuthMethod where
  | key (path : String)
  | password (pw : String)
deriving DecidableEq, Repr

/-- Errors `connect` can raise: the `ValueError` for missing authentication
configuration, or a failure from the transport-level `connect` call. -/
inductive ConnectError where
  | noAuthConfig
  | connectionFailed (msg : String)
deriving DecidableEq, Repr

/-- The Python `str(e)` of a `connect` exception. -/
def ConnectError.message : ConnectError → String
  | .noAuthConfig => "Either password or key_filename must be provided"
  | .connectionFailed m => m

/-- Authentication branch chosen by `connect`:
`if self.key_filename: ... elif self.password: ... else: raise ValueError`. -/
def auth_choice (s : State) : Option AuthMethod :=
  if truthy s.key_filename then some (.key (getS s.key_filename))
  else if truthy s.password then some (.password (getS s.password))
  else none

/-- Result of a `connect` call: the post-call object state, the raised
exception (if any), and the network connection attempts made during the call. -/
structure ConnectOutcome where
  state : State
  result : Except ConnectError Unit
  net_attempts : List AuthMethod
deriving Repr

/-- `SSHClient.connect`, with the remote host's behaviour supplied as `net`.
Mirrors the source order of effects: `self.client = paramiko.SSHClient()` is
assigned first; the `ValueError` for missing auth is raised before any network
call; a failing transport `connect` re-raises, leaving `self.client` holding
the fresh, unconnected transport object. -/
def connect (s : State) (net : AuthMethod → Except String Unit) : ConnectOutcome :=
  let s1 : State := { s with client := some { connected := false } }
  match auth_choice s1 with
  | none => { state := s1, result := .error .noAuthConfig, net_attempts := [] }
  | some m =>
    match net m with
    | .ok _ =>
        { state := { s1 with client := some { connected := true } },
          result := .ok (), net_attempts := [m] }
    | .error e =>
        { state := s1, result := .error (.connectionFailed e), net_attempts := [m] }

/-- `SSHClient.disconnect`: `if self.client: self.client.close(); self.client = None`.
The transport `close` never raises, so the call is total. -/
def disconnect (s : State) : State :=
  match s.client with
  | some _ => { s with client := none }
  | none => s

/-- Errors `execute_command` can raise: the guard's `RuntimeError` when
`self.client` is `None`, the transport's own failure when the client object
exists but no session was ever established (paramiko raises without touching
the network), or a transport failure during execution of the command. -/
inductive ExecError where
  | notConnectedError
  | sessionNotActive
  | transportFailure (msg : String)
deriving DecidableEq, Repr

/-- The Python `str(e)` of an `execute_command` exception. -/
def ExecError.message : ExecError → String
  | .notConnectedError => "SSH client not connected. Call connect() first."
  | .sessionNotActive => "SSH session not active"
  | .transportFailure m => m

/-- Result of an `execute_command` call: the returned triple or raised
exception, and the commands actually sent over the network during the call. -/
structure ExecOutcome where
  result : Except ExecError ExecTriple
  net_attempts : List String
deriving Repr

/-- `SSHClient.execute_command`, with the remote host's behaviour supplied as
`net` (the raw decoded stdout/stderr and exit status for a command). The
returned stdout and stderr are `.strip()`ped of surrounding whitespace. -/
def execute_command (s : State) (command : String)
    (net : String → Except String ExecTriple) : ExecOutcome :=
  match s.client with
  | none => { result := .error .notConnectedError, net_attempts := [] }
  | some c =>
    if c.connected then
      match net command with
      | .ok t =>
          { result := .ok { stdout := t.stdout.trim, stderr := t.stderr.trim,
                            exit_code := t.exit_code },
            net_attempts := [command] }
      | .error e => { result := .error (.transportFailure e), net_attempts := [command] }
    else
      { result := .error .sessionNotActive, net_attempts := [] }

end SSHClient

namespace Server

/-- The environment variables read by `get_connection_config` (`None` means
the variable is unset; an empty string is a set-but-empty variable), plus the
home directory used by `os.path.expanduser`. -/
structure Env where
  slurm_host : Option String
  slurm_user : Option String
  user_var : Option String
  slurm_password : Option String
  slurm_key_file : Option String
  slurm_port : Option String
  home : Option String
deriving DecidableEq, Repr

/-- `os.path.expanduser("~/.ssh/id_rsa")`: the home directory followed by
`/.ssh/id_rsa`; when no home directory is known the path is left unchanged. -/
def expanduser_default_key (home : Option String) : String :=
  (match home with | some h => h | none => "~") ++ "/.ssh/id_rsa"

/-- The configuration dictionary built by `get_connection_config`. -/
structure ConnectionConfig where
  hostname : String
  username : String
  password : Option String
  key_filename : Option String
  port : Int
deriving DecidableEq, Repr

/-- The `int()` parse of a decimal numeral, modelled structurally over the
character list. Faithful for the well-formed values the claims use; Python's
`ValueError` on malformed input is not modelled, as no claim depends on it. -/
def parse_port (s : String) : Int :=
  (s.data.foldl (fun acc c => acc * 10 + (c.toNat - 48)) 0 : Nat)

/-- `server.get_connection_config`: each `os.getenv(name, default)` yields the
variable's value when it is set (even to the empty string) and the default
otherwise. `key_filename` is therefore never `None`. -/
def get_connection_config (e : Env) : ConnectionConfig :=
  { hostname := e.slurm_host.getD "localhost",
    username := e.slurm_user.getD (e.user_var.getD "user"),
    password := e.slurm_password,
    key_filename := some (e.slurm_key_file.getD (expanduser_default_key e.home)),
    port := parse_port (e.slurm_port.getD "22") }

/-- `SSHClient(**config)`: a fresh client constructed from the configuration. -/
def of_config (c : ConnectionConfig) : SSHClient.State :=
  SSHClient.init c.hostname c.username c.password c.key_filename c.port

/-- The module-level globals of `server.py`: `ssh_client` and `slurm_client`
(the latter merely wraps the former, so its presence is a flag). -/
structure ServerState where
  ssh_client : Option SSHClient.State
  slurm_client : Bool
deriving Repr

/-- `server.ensure_connection`: when either global is unset, build a fresh
`SSHClient` from the environment configuration and connect it. The global
`ssh_client` is assigned before `connect()` is called, so a failing connect
leaves the fresh (partially constructed) client in the global; `slurm_client`
is only set after a successful connect. -/
def ensure_connection (g : ServerState) (e : Env)
    (net : SSHClient.AuthMethod → Except String Unit) :
    ServerState × Except SSHClient.ConnectError SSHClient.State :=
  match g.ssh_client, g.slurm_client with
  | some st, true => (g, .ok st)
  | _, _ =>
    let o := SSHClient.connect (of_config (get_connection_config e)) net
    match o.result with
    | .ok _ => ({ ssh_client := some o.state, slurm_client := true }, .ok o.state)
    | .error err =>
        ({ ssh_client := some o.state, slurm_client := g.slurm_client }, .error err)

/-- A Python dict returned by a tool, as an ordered key/value list. -/
abbrev ToolDict : Type := List (String × String)

/-- The shared result-wrapping block of the squeue, sinfo, sacct,
scontrol_show_job and scontrol_show_node tools:
success yields `{status, data, command}`, failure `{status, error, command}`. -/
def query_tool_body (r : SlurmClient.CmdResult) : ToolDict :=
  if r.success then
    [("status", "success"), ("data", r.stdout), ("command", r.command)]
  else
    [("status", "error"), ("error", r.stderr), ("command", r.command)]

/-- The result-wrapping block of the scancel tool: success yields
`{status, message, command}` with a synthesised message (not the stdout),
failure yields `{status, error, command}` as the other tools do. -/
def scancel_tool_body (job_id : String) (r : SlurmClient.CmdResult) : ToolDict :=
  if r.success then
    [("status", "success"),
     ("message", "Job " ++ job_id ++ " cancelled successfully"),
     ("command", r.command)]
  else
    [("status", "error"), ("error", r.stderr), ("command", r.command)]

/-- The shared `try/except` pipeline of every command-executing tool in
`server.py`: `ensure_connection()`, run the built command through the SLURM
client, wrap the result dict; any exception from the lower layers — including
connection establishment — is caught by the `except Exception` clause and
turned into `{status: error, error: str(e)}` (no `command` key on that path). -/
def run_op (g : ServerState) (e : Env)
    (netc : SSHClient.AuthMethod → Except String Unit)
    (nete : String → Except String ExecTriple)
    (command : String) (wrap : SlurmClient.CmdResult → ToolDict) :
    ServerState × ToolDict :=
  match ensure_connection g e netc with
  | (g1, .error err) => (g1, [("status", "error"), ("error", err.message)])
  | (g1, .ok st) =>
    match (SSHClient.execute_command st command nete).result with
    | .error err => (g1, [("status", "error"), ("error", err.message)])
    | .ok t =>
        (g1, wrap { command := command, stdout := t.stdout, stderr := t.stderr,
                    exit_code := t.exit_code, success := t.exit_code == 0 })

/-- One invocation of a command-executing exposed operation, with its
arguments. -/
inductive ToolCall where
  | squeueCall (user job_id partition format_str : Option String)
  | sinfoCall (partition format_str nodes : Option String)
  | sacctCall (job_id user start_time end_time format_str : Option String)
  | scontrolShowJobCall (job_id : String)
  | scontrolShowNodeCall (node_name : Option String)
  | scancelCall (job_id : String)
deriving DecidableEq, Repr

/-- The command string the invoked operation builds. -/
def ToolCall.command : ToolCall → String
  | .squeueCall u j p f => SlurmClient.squeue_command u j p f
  | .sinfoCall p f n => SlurmClient.sinfo_command p f n
  | .sacctCall j u s en f => SlurmClient.sacct_command j u s en f
  | .scontrolShowJobCall j => SlurmClient.scontrol_show_job_command j
  | .scontrolShowNodeCall n => SlurmClient.scontrol_show_node_command n
  | .scancelCall j => SlurmClient.scancel_command j

/-- The result-wrapping block the invoked operation uses: scancel synthesises
its success message, all other operations surface stdout as `data`. -/
def ToolCall.wrap : ToolCall → SlurmClient.CmdResult → ToolDict
  | .scancelCall j => scancel_tool_body j
  | _ => query_tool_body

/-- Full execution of one exposed operation against the given environment,
connect behaviour and command-execution behaviour. -/
def ToolCall.run (tc : ToolCall) (g : ServerState) (e : Env)
    (netc : SSHClient.AuthMethod → Except String Unit)
    (nete : String → Except String ExecTriple) : ServerState × ToolDict :=
  run_op g e netc nete tc.command tc.wrap

/-- The host/user/port information block of the connection-status result,
taken from the environment configuration. The integer port is rendered as its
decimal numeral, since the dict model is string-valued. -/
def connection_info (e : Env) : ToolDict :=
  [("hostname", (get_connection_config e).hostname),
   ("username", (get_connection_config e).username),
   ("port", toString (get_connection_config e).port)]

/-- The `get_connection_status` tool (`server.py`): when the global
`ssh_client` is set and its `client` attribute is set, probe the session with
`echo 'connection test'`; exit code 0 yields
`{status: connected, hostname, username, port}`, any other exit code falls
through to `{status: disconnected, hostname, username, port}`, as does the
absence of a client handle; an exception from the probe is caught and yields
`{status: error, error: str(e)}`. -/
def get_connection_status_tool (g : ServerState) (e : Env)
    (nete : String → Except String ExecTriple) : ToolDict :=
  match g.ssh_client with
  | none => ("status", "disconnected") :: connection_info e
  | some st =>
    match st.client with
    | none => ("status", "disconnected") :: connection_info e
    | some _ =>
      match (SSHClient.execute_command st "echo \x27connection test\x27" nete).result with
      | .error err => [("status", "error"), ("error", err.message)]
      | .ok t =>
          if t.exit_code == 0 then ("status", "connected") :: connection_info e
          else ("status", "disconnected") :: connection_info e

/-- Whether a result dict has the shape the specification claims for every
exposed operation: `{status: success|error, data|error: string, command: string}`
— `status: success` paired with a `data` entry, or `status: error` paired
with an `error` entry, followed by the issued command. -/
def claimed_shape (d : ToolDict) : Bool :=
  match d with
  | [("status", st), (k, _), ("command", _)] =>
      (st == "success" && k == "data") || (st == "error" && k == "error")
  | _ => false

/-- The `disconnect` tool: when the global `ssh_client` is set, release it and
clear both globals; either way report success. The lower-level `disconnect`
never raises, so the `except` branch is unreachable. -/
def disconnect_tool (g : ServerState) : ServerState × ToolDict :=
  match g.ssh_client with
  | some _ =>
      ({ ssh_client := none, slurm_client := false },
       [("status", "success"), ("message", "Disconnected from SLURM cluster")])
  | none => (g, [("status", "success"), ("message", "Disconnected from SLURM cluster")])

/-- An environment with every variable unset. -/
def env_unset : Env :=
  { slurm_host := none, slurm_user := none, user_var := none, slurm_password := none,
    slurm_key_file := none, slurm_port := none, home := none }

/-- An environment in which `SLURM_KEY_FILE` is set to the empty string and
no password is set. -/
def env_empty_key : Env :=
  { slurm_host := none, slurm_user := none, user_var := none, slurm_password := none,
    slurm_key_file := some "", slurm_port := none, home := some "/home/alice" }

/-- A concrete SSH client state holding an established session. -/
def connected_ssh_state : SSHClient.State :=
  { hostname := "login.example.com", username := "alice", password := none,
    key_filename := some "/home/alice/.ssh/id_rsa", port := 22,
    client := some { connected := true } }

/-- The server's global state before any operation has run. -/
def fresh_server_state : ServerState := { ssh_client := none, slurm_client := false }

/-- A remote host that accepts every connection attempt. -/
def net_ok : SSHClient.AuthMethod → Except String Unit := fun _ => .ok ()

/-- A remote host that answers every command with the given triple. -/
def exec_const (t : ExecTriple) : String → Except String ExecTriple := fun _ => .ok t

end Server

open SlurmClient SSHClient Server

/-- C2: for every combination of the optional filters passed to queue-list,
the constructed command is the base command followed by the documented
ordered flag list — the format flag first, then user, then job-id, then
partition — with each supplied filter's flag appearing exactly once and no
flag emitted for an absent filter (a filter is supplied when it tests true
under Python truthiness, which is how the builder checks presence). -/
theorem squeue_flag_order_multiplicity (u j p f : Option String) :
    squeue_cmd u j p f = "squeue" :: pair_tokens (squeue_spec_flags u j p f)
  ∧ (squeue_spec_flags u j p f).map Prod.fst
      = ["-o"] ++ (if truthy u then ["-u"] else [])
          ++ (if truthy j then ["-j"] else []) ++ (if truthy p then ["-p"] else [])
  ∧ ((squeue_spec_flags u j p f).map Prod.fst).count "-o" = 1
  ∧ ((squeue_spec_flags u j p f).map Prod.fst).count "-u" = (if truthy u then 1 else 0)
  ∧ ((squeue_spec_flags u j p f).map Prod.fst).count "-j" = (if truthy j then 1 else 0)
  ∧ ((squeue_spec_flags u j p f).map Prod.fst).count "-p" = (if truthy p then 1 else 0) := by
  refine ⟨?_, ?_, ?_, ?_, ?_, ?_⟩ <;>
    cases hf : truthy f <;> cases hu : truthy u <;> cases hj : truthy j <;>
      cases hp : truthy p <;>
        simp [squeue_cmd, squeue_spec_flags, pair_tokens, hf, hu, hj, hp,
          List.count_cons, List.count_nil]

/-- C5: with no filters, queue-list produces exactly the base command plus
the single default-column format flag, and accounting-query produces exactly
the base command plus `--format` and the default field list. -/
theorem default_format_commands :
    squeue_command none none none none
      = "squeue -o \"%.18i %.9P %.8j %.8u %.2t %.10M %.6D %R\""
  ∧ sacct_command none none none none none
      = "sacct --format JobID,JobName,Partition,Account,AllocCPUS,State,ExitCode" :=
  ⟨rfl, rfl⟩

/-- C10: for every format value — supplied or default — the queue-list and
cluster-info builders embed the value surrounded by literal double-quote
characters, while the accounting-query builder appends its format value with
no surrounding quote characters, whatever the other filters are. -/
theorem format_value_quoting (u j p n st en : Option String) (s : String) (h : s ≠ "") :
    (squeue_cmd u j p (some s)).take 3 = ["squeue", "-o", "\"" ++ s ++ "\""]
  ∧ (sinfo_cmd p (some s) n).take 3 = ["sinfo", "-o", "\"" ++ s ++ "\""]
  ∧ (sacct_cmd j u st en (some s)).take 3 = ["sacct", "--format", s]
  ∧ (squeue_cmd u j p none).take 3
      = ["squeue", "-o", "\"" ++ "%.18i %.9P %.8j %.8u %.2t %.10M %.6D %R" ++ "\""]
  ∧ (sinfo_cmd p none n).take 3
      = ["sinfo", "-o", "\"" ++ "%.20P %.5a %.10l %.6D %.6t %.14N" ++ "\""]
  ∧ (sacct_cmd j u st en none).take 3 = ["sacct", "--format", sacct_default_fields] := by
  have hs : (s == "") = false := by simp [h]
  refine ⟨?_, ?_, ?_, ?_, ?_, ?_⟩ <;>
    simp [squeue_cmd, sinfo_cmd, sacct_cmd, truthy, quoted, getS, hs,
      squeue_default_format, sinfo_default_format, sacct_default_fields]

/-- C10 witness: the quoting behaviour at the concrete format value `%i`. -/
theorem format_value_quoting_witness :
    (squeue_cmd none none none (some "%i")).take 3 = ["squeue", "-o", "\"" ++ "%i" ++ "\""]
  ∧ (sinfo_cmd none (some "%i") none).take 3 = ["sinfo", "-o", "\"" ++ "%i" ++ "\""]
  ∧ (sacct_cmd none none none none (some "%i")).take 3 = ["sacct", "--format", "%i"] := by
  have h := format_value_quoting none none none none none none "%i" (by decide)
  exact ⟨h.1, h.2.1, h.2.2.1⟩

/-- C7: when neither a password nor a key path tests true, `connect` raises
the authentication-configuration `ValueError` and makes no network connection
attempt at all. -/
theorem connect_without_auth_fails_before_network (s : SSHClient.State)
    (net : AuthMethod → Except String Unit)
    (hk : truthy s.key_filename = false) (hp : truthy s.password = false) :
    (SSHClient.connect s net).result = .error .noAuthConfig
  ∧ (SSHClient.connect s net).net_attempts = [] := by
  simp [SSHClient.connect, auth_choice, hk, hp]

/-- C7 witness: the concrete no-authentication client. -/
theorem connect_without_auth_fails_before_network_witness :
    (SSHClient.connect (SSHClient.init "login.example.com" "alice" none none 22)
        (fun _ => .ok ())).result = .error .noAuthConfig
  ∧ (SSHClient.connect (SSHClient.init "login.example.com" "alice" none none 22)
        (fun _ => .ok ())).net_attempts = [] :=
  connect_without_auth_fails_before_network _ _ rfl rfl

/-- C8: `disconnect` is idempotent at both layers — a second call is a no-op,
calling it on a never-connected client is a no-op, the session is in the
disconnected state afterwards, and (both functions being total in the model,
matching the source where the transport `close` does not raise and the tool
wraps everything in `try/except`) no call raises. -/
theorem disconnect_idempotent (s : SSHClient.State) (g : ServerState)
    (hostname username : String) (password key_filename : Option String) (port : Int) :
    SSHClient.disconnect (SSHClient.disconnect s) = SSHClient.disconnect s
  ∧ (SSHClient.disconnect s).client = none
  ∧ SSHClient.disconnect (SSHClient.init hostname username password key_filename port)
      = SSHClient.init hostname username password key_filename port
  ∧ (disconnect_tool g).1.ssh_client = none
  ∧ disconnect_tool (disconnect_tool g).1 = disconnect_tool g := by
  refine ⟨?_, ?_, ?_, ?_, ?_⟩
  · cases hs : s.client <;> simp [SSHClient.disconnect, hs]
  · cases hs : s.client <;> simp [SSHClient.disconnect, hs]
  · simp [SSHClient.disconnect, SSHClient.init]
  · rcases g with ⟨sc, b⟩; cases sc <;> simp [disconnect_tool]
  · rcases g with ⟨sc, b⟩; cases sc <;> simp [disconnect_tool]

/-- C4 (code evaluated at the failing inputs): a failed `connect` — whether
from missing authentication configuration or from a refused/unreachable
transport connection — leaves `self.client` holding a fresh unconnected
transport object (`some` an unconnected client), not the pre-attempt `None`:
construction is not all-or-nothing. -/
theorem failed_connect_leaves_partial_handle :
    (SSHClient.connect (SSHClient.init "login.example.com" "alice" none none 22)
        (fun _ => .error "unreachable")).result = .error .noAuthConfig
  ∧ (SSHClient.init "login.example.com" "alice" none none 22).client = none
  ∧ (SSHClient.connect (SSHClient.init "login.example.com" "alice" none none 22)
        (fun _ => .error "unreachable")).state.client = some { connected := false }
  ∧ (SSHClient.connect
        (SSHClient.init "login.example.com" "alice" none (some "/home/alice/.ssh/id_rsa") 22)
        (fun _ => .error "No route to host")).result
      = .error (.connectionFailed "No route to host")
  ∧ (SSHClient.connect
        (SSHClient.init "login.example.com" "alice" none (some "/home/alice/.ssh/id_rsa") 22)
        (fun _ => .error "No route to host")).state.client = some { connected := false } :=
  ⟨rfl, rfl, rfl, rfl, rfl⟩

/-- C6 counterexample: after a connect attempt that failed (so connect has
never succeeded), `execute_command` does not fail with the not-connected
`RuntimeError` — the `if not self.client` guard passes because the failed
connect left the client object assigned — and instead the unconnected
transport's own error surfaces. -/
theorem execute_after_failed_connect_cex :
    (SSHClient.execute_command
        (SSHClient.connect (SSHClient.init "login.example.com" "alice" none none 22)
          (fun _ => .error "unreachable")).state
        "squeue" (fun _ => .ok { stdout := "out", stderr := "", exit_code := 0 })).result
      = .error .sessionNotActive
  ∧ (Except.error ExecError.sessionNotActive : Except ExecError ExecTriple)
      ≠ .error .notConnectedError := by
  exact ⟨rfl, by simp⟩

/-- C6 (amended): calling `execute_command` before `connect` has ever been
called — the client handle still `None` — always fails with the not-connected
error and attempts no network I/O. -/
theorem execute_before_connect_not_connected (s : SSHClient.State) (command : String)
    (net : String → Except String ExecTriple) (h : s.client = none) :
    (SSHClient.execute_command s command net).result = .error .notConnectedError
  ∧ (SSHClient.execute_command s command net).net_attempts = [] := by
  simp [SSHClient.execute_command, h]

/-- C6 witness: a freshly initialised client. -/
theorem execute_before_connect_not_connected_witness :
    (SSHClient.execute_command (SSHClient.init "login.example.com" "alice" none none 22)
        "squeue" (fun _ => .ok { stdout := "", stderr := "", exit_code := 0 })).result
      = .error .notConnectedError
  ∧ (SSHClient.execute_command (SSHClient.init "login.example.com" "alice" none none 22)
        "squeue" (fun _ => .ok { stdout := "", stderr := "", exit_code := 0 })).net_attempts
      = [] :=
  execute_before_connect_not_connected _ _ _ rfl

/-- C1 counterexample: three exposed operations break the claimed result
mapping and shape. The scancel operation on a zero exit code returns a
synthesised `message` field instead of `data: <stdout>`; the
connection-status operation on a zero exit code of its echo probe returns
`{status: connected, hostname, username, port}`; and the disconnect operation
returns `{status: success, message}` with no `command` key — none of the
three has the shape `{status: success|error, data|error, command}`. -/
theorem exposed_op_shape_cex :
    (ToolCall.run (.scancelCall "12345")
        { ssh_client := some connected_ssh_state, slurm_client := true }
        env_unset net_ok (exec_const { stdout := "out", stderr := "", exit_code := 0 })).2
      = [("status", "success"), ("message", "Job 12345 cancelled successfully"),
         ("command", "scancel 12345")]
  ∧ claimed_shape
      (ToolCall.run (.scancelCall "12345")
        { ssh_client := some connected_ssh_state, slurm_client := true }
        env_unset net_ok (exec_const { stdout := "out", stderr := "", exit_code := 0 })).2
      = false
  ∧ get_connection_status_tool
        { ssh_client := some connected_ssh_state, slurm_client := true }
        env_unset (exec_const { stdout := "connection test", stderr := "", exit_code := 0 })
      = [("status", "connected"), ("hostname", "localhost"), ("username", "user"),
         ("port", "22")]
  ∧ claimed_shape
      (get_connection_status_tool
        { ssh_client := some connected_ssh_state, slurm_client := true }
        env_unset (exec_const { stdout := "connection test", stderr := "", exit_code := 0 }))
      = false
  ∧ (disconnect_tool fresh_server_state).2
      = [("status", "success"), ("message", "Disconnected from SLURM cluster")]
  ∧ claimed_shape (disconnect_tool fresh_server_state).2 = false :=
  ⟨rfl, rfl, rfl, rfl, rfl, rfl⟩

/-- C1 (amended): for the six command-executing exposed operations and every
execution triple returned by the transport, a nonzero exit code yields
`{status: error, error: <stderr>, command}` and a zero exit code yields
`{status: success, data: <stdout>, command}` — except for the job-cancel
operation, whose success result carries a fixed `message` instead of the
stdout. The surfaced stdout/stderr are the raw transport output trimmed of
surrounding whitespace, exactly as the session layer returns them. The two
remaining exposed operations never follow the claimed mapping or shape:
connection-status returns `{status: connected, hostname, username, port}`
when a session exists and its echo probe exits 0,
`{status: disconnected, hostname, username, port}` when the probe exits
nonzero or no session handle exists, and disconnect always returns
`{status: success, message}` with no command key. -/
theorem exposed_op_result_shape (tc : ToolCall) (st : SSHClient.State) (e : Env)
    (netc : AuthMethod → Except String Unit) (raw : ExecTriple) (g : ServerState)
    (h : st.client = some { connected := true }) :
    ((ToolCall.run tc { ssh_client := some st, slurm_client := true } e netc
        (fun _ => .ok raw)).2
      = if raw.exit_code == 0 then
          match tc with
          | .scancelCall job_id =>
              [("status", "success"),
               ("message", "Job " ++ job_id ++ " cancelled successfully"),
               ("command", tc.command)]
          | _ => [("status", "success"), ("data", raw.stdout.trim), ("command", tc.command)]
        else
          [("status", "error"), ("error", raw.stderr.trim), ("command", tc.command)])
  ∧ (get_connection_status_tool { ssh_client := some st, slurm_client := true } e
        (fun _ => .ok raw)
      = if raw.exit_code == 0 then ("status", "connected") :: connection_info e
        else ("status", "disconnected") :: connection_info e)
  ∧ (get_connection_status_tool { ssh_client := none, slurm_client := false } e
        (fun _ => .ok raw)
      = ("status", "disconnected") :: connection_info e)
  ∧ ((disconnect_tool g).2
      = [("status", "success"), ("message", "Disconnected from SLURM cluster")]) := by
  refine ⟨?_, ?_, ?_, ?_⟩
  · cases hec : raw.exit_code == 0 <;>
      cases tc <;>
        simp [ToolCall.run, run_op, ensure_connection, ToolCall.wrap, ToolCall.command,
          query_tool_body, scancel_tool_body, SSHClient.execute_command, h, hec]
  · cases hec : raw.exit_code == 0 <;>
      simp [get_connection_status_tool, SSHClient.execute_command, h, hec]
  · simp [get_connection_status_tool]
  · rcases g with ⟨sc, b⟩; cases sc <;> simp [disconnect_tool]

/-- C1 witness: the squeue operation on a successful execution surfaces the
trimmed stdout as `data` together with the issued command, and the
connection-status operation on the same triple reports `connected`. -/
theorem exposed_op_result_shape_witness :
    (ToolCall.run (.squeueCall none none none none)
        { ssh_client := some connected_ssh_state, slurm_client := true }
        env_unset net_ok
        (fun _ => .ok { stdout := "  JOBID  ", stderr := "", exit_code := 0 })).2
      = [("status", "success"), ("data", "  JOBID  ".trim),
         ("command", squeue_command none none none none)]
  ∧ get_connection_status_tool
        { ssh_client := some connected_ssh_state, slurm_client := true } env_unset
        (fun _ => .ok { stdout := "  JOBID  ", stderr := "", exit_code := 0 })
      = ("status", "connected") :: connection_info env_unset :=
  ⟨((exposed_op_result_shape (.squeueCall none none none none) connected_ssh_state
      env_unset net_ok { stdout := "  JOBID  ", stderr := "", exit_code := 0 }
      fresh_server_state rfl).1).trans rfl,
   ((exposed_op_result_shape (.squeueCall none none none none) connected_ssh_state
      env_unset net_ok { stdout := "  JOBID  ", stderr := "", exit_code := 0 }
      fresh_server_state rfl).2.1).trans rfl⟩

/-- C3 counterexample: a connection-establishment failure does not propagate
out of the operation — the operation's `except Exception` clause catches it
and converts it into the structured `{status: error, error: <message>}`
result. -/
theorem connect_failure_caught_at_boundary_cex :
    (ToolCall.run (.squeueCall none none none none) fresh_server_state
        { slurm_host := none, slurm_user := none, user_var := none,
          slurm_password := none, slurm_key_file := some "/home/alice/.ssh/id_rsa",
          slurm_port := none, home := none }
        (fun _ => .error "Connection refused")
        (exec_const { stdout := "", stderr := "", exit_code := 0 })).2
      = [("status", "error"), ("error", "Connection refused")] := rfl

/-- C3 (amended): every error raised by a lower layer during an operation —
connection establishment included, along with not-connected and transport
failures during execution — is caught at the operation boundary and converted
into a structured `{status: error, error: <message>}` result; no lower-layer
failure escapes the operation. -/
theorem tool_catches_all_lower_errors (tc : ToolCall) (g : ServerState) (e : Env)
    (netc : AuthMethod → Except String Unit)
    (nete : String → Except String ExecTriple) :
    (∀ err, (ensure_connection g e netc).2 = .error err →
        (ToolCall.run tc g e netc nete).2
          = [("status", "error"), ("error", err.message)])
  ∧ (∀ st err, (ensure_connection g e netc).2 = .ok st →
        (SSHClient.execute_command st tc.command nete).result = .error err →
        (ToolCall.run tc g e netc nete).2
          = [("status", "error"), ("error", err.message)]) := by
  constructor
  · intro err h
    unfold ToolCall.run run_op
    rcases hE : ensure_connection g e netc with ⟨g1, r⟩
    rw [hE] at h
    simp at h
    subst h
    rfl
  · intro st err h1 h2
    unfold ToolCall.run run_op
    rcases hE : ensure_connection g e netc with ⟨g1, r⟩
    rw [hE] at h1
    simp at h1
    subst h1
    simp [h2]

/-- C3 witness: the missing-authentication connect failure surfaces as the
structured error result of the accounting operation. -/
theorem tool_catches_all_lower_errors_witness :
    (ToolCall.run (.sacctCall none none none none none) fresh_server_state env_empty_key
        net_ok (exec_const { stdout := "", stderr := "", exit_code := 0 })).2
      = [("status", "error"),
         ("error", "Either password or key_filename must be provided")] :=
  (tool_catches_all_lower_errors (.sacctCall none none none none none) fresh_server_state
      env_empty_key net_ok
      (exec_const { stdout := "", stderr := "", exit_code := 0 })).1
    .noAuthConfig rfl

/-- Helper: the expanded default user key path is never the empty string. -/
theorem expanduser_default_key_ne_empty (home : Option String) :
    expanduser_default_key home ≠ "" := by
  cases home with
  | none => decide
  | some h =>
    show h ++ "/.ssh/id_rsa" ≠ ""
    intro hc
    have h2 := congrArg String.length hc
    rw [String.length_append] at h2
    have h12 : ("/.ssh/id_rsa" : String).length = 12 := rfl
    have h0 : ("" : String).length = 0 := rfl
    rw [h12, h0] at h2
    omega

/-- C9 counterexample: with `SLURM_KEY_FILE` set to the empty string and no
password configured, the environment-sourced key path is non-`None` yet
falsy, so the lazy-connect path of an exposed operation reaches the
no-authentication configuration-error branch of `connect`. -/
theorem empty_key_file_reaches_no_auth_branch_cex :
    (get_connection_config env_empty_key).key_filename = some ""
  ∧ (get_connection_config env_empty_key).key_filename ≠ none
  ∧ (SSHClient.connect (of_config (get_connection_config env_empty_key)) net_ok).result
      = .error .noAuthConfig
  ∧ (ToolCall.run (.squeueCall none none none none) fresh_server_state env_empty_key
        net_ok (exec_const { stdout := "", stderr := "", exit_code := 0 })).2
      = [("status", "error"),
         ("error", "Either password or key_filename must be provided")] :=
  ⟨rfl, by decide, rfl, rfl⟩

/-- C9 (amended): the environment-sourced configuration always carries a
non-`None` key path, and whenever that path is non-empty — in particular
whenever `SLURM_KEY_FILE` is unset, so the default user key file is used —
`connect` selects the key-based authentication branch and the
no-authentication error branch is unreachable; only a set-but-empty
`SLURM_KEY_FILE` escapes this. -/
theorem config_key_path_always_present (e : Env) :
    (get_connection_config e).key_filename.isSome = true
  ∧ (truthy (get_connection_config e).key_filename = true →
      auth_choice (of_config (get_connection_config e))
        = some (.key (getS (get_connection_config e).key_filename)))
  ∧ (e.slurm_key_file = none →
      truthy (get_connection_config e).key_filename = true) := by
  refine ⟨rfl, ?_, ?_⟩
  · intro ht
    simp [auth_choice, of_config, SSHClient.init, ht]
  · intro h
    simp [get_connection_config, truthy, h]
    exact expanduser_default_key_ne_empty e.home

/-- C9 witness: with every variable unset, the key path is present and truthy. -/
theorem config_key_path_always_present_witness :
    (get_connection_config env_unset).key_filename.isSome = true
  ∧ truthy (get_connection_config env_unset).key_filename = true :=
  ⟨(config_key_path_always_present env_unset).1,
   (config_key_path_always_present env_unset).2.2 rfl⟩

end SlurmMcp
